import Mathlib

/-!
Shallow embedding of `src/choropleth_overlay_generator.ipynb` (vizuepy).

The notebook is a linear pipeline: load a vector dataset, render a
categorical choropleth into a matplotlib figure, export the legend into a
separate image (relabelling category codes through a lookup dictionary),
export the axis-stripped plot as a texture image, and print four
geo-registration numbers derived from the final axis limits and a supplied
world-origin coordinate.

Coordinates, inches and dpi values are embedded as rationals.  Python
dictionaries are embedded as association lists; a subscript `d[k]` on a
missing key is the hard error `KeyError`, embedded as `labelLookupError`.
-/

namespace Vizuepy

/-- A matplotlib bounding box, as carried by `Bbox.extents = (x0, y0, x1, y1)`. -/
structure Bbox where
  x0 : ℚ
  y0 : ℚ
  x1 : ℚ
  y1 : ℚ
deriving DecidableEq, Repr

/-- The plot extent read back from `ax.get_xlim()` / `ax.get_ylim()`:
`xlim = (xmin, xmax)`, `ylim = (ymin, ymax)`. -/
structure Extent where
  xmin : ℚ
  xmax : ℚ
  ymin : ℚ
  ymax : ℚ
deriving DecidableEq, Repr

/-- The four values printed by cell 5 for manual entry into the external engine. -/
structure GeoRegistration where
  eastings_offset_cm : ℚ
  northings_offset_cm : ℚ
  texture_width_cm : ℚ
  texture_height_cm : ℚ
deriving DecidableEq, Repr

/-- Cell 5 of the notebook:
`-100 * (ue_world_origin_bng_eastings - ax.get_xlim()[0])`,
`100 * (ue_world_origin_bng_northings - ax.get_ylim()[0])`,
`100 * (ax.get_xlim()[1] - ax.get_xlim()[0])`,
`100 * (ax.get_ylim()[1] - ax.get_ylim()[0])`. -/
def geoRegistration (e : Extent) (origin_x origin_y : ℚ) : GeoRegistration :=
  { eastings_offset_cm := -100 * (origin_x - e.xmin)
    northings_offset_cm := 100 * (origin_y - e.ymin)
    texture_width_cm := 100 * (e.xmax - e.xmin)
    texture_height_cm := 100 * (e.ymax - e.ymin) }

/-! Cell 2 configuration values. -/

/-- The single hardcoded CRS identifier the notebook was developed against. -/
def expected_crs : String := "EPSG:27700"

/-- Cell-2 `legend_label_lookup`: supergroup code to description. -/
def legend_label_lookup : List (String × String) :=
  [("A", "Intermediate Lifestyles"),
   ("B", "High Density and High Rise Flats"),
   ("C", "Settled Asians"),
   ("D", "Urban Elites"),
   ("E", "City Vibe"),
   ("F", "London Life-Cycle"),
   ("G", "Multi-Ethnic Suburbs"),
   ("H", "Ageing City Fringe")]

def column_to_plot : String := "Super"

def legend_filename : String := "images/FourLADs_LOAC_legend.png"

def texture_filename : String := "images/FourLADs_LOAC_texture.png"

def ue_world_origin_bng_eastings : ℚ := 532816

def ue_world_origin_bng_northings : ℚ := 180759

/-- The cell-2 CRS check: `if gdf.crs != "EPSG:27700": print(...)`.
It only prints a warning; it can never raise. -/
def crsCheckWarnings (crs : String) : List String :=
  if crs ≠ expected_crs then
    ["Check your coordinate reference system. This notebook was developed using EPSG:27700 and it may not work correctly with other coordinate reference systems."]
  else []

/-! Cell 4 configuration: figure size and resolution. -/

def width_inches : ℚ := 64 / 5

def height_inches : ℚ := 48 / 5

def dpi : ℚ := 600

/-- Pixel width of a raster canvas of physical width `w` inches rasterized at
`d` dots per inch. -/
def canvasPixelWidth (w d : ℚ) : ℚ := w * d

/-- Pixel height of a raster canvas of physical height `h` inches rasterized at
`d` dots per inch. -/
def canvasPixelHeight (h d : ℚ) : ℚ := h * d

/-- Modelled from the spec: the texture rasterization performed inside
`plt.savefig(texture_filename, bbox_inches=tight, pad_inches=0., dpi=dpi)`
is matplotlib rendering code not under src/.  Per spec section 4.4, the
call site enforces equal-aspect scaling (`ax.axis(scaled)`), so one data
unit renders to the same number of pixels `s` in each axis direction, and
removes all padding, so the saved raster covers exactly the data-plot
extent: the saved image is `s * (xmax - xmin)` pixels wide, rounded to an
integer pixel count. -/
def textureSavePixelWidth (s : ℚ) (e : Extent) : ℤ :=
  round (s * (e.xmax - e.xmin))

/-- Modelled from the spec: pixel height of the saved texture, the
equal-aspect scale `s` applied to the extent height with no padding,
rounded to an integer pixel count (see `textureSavePixelWidth`). -/
def textureSavePixelHeight (s : ℚ) (e : Extent) : ℤ :=
  round (s * (e.ymax - e.ymin))

/-! `export_legend` (cell 3). -/

/-- Errors the run can abort with.  `labelLookupError c` embeds the Python
`KeyError` raised by `legend_label_dict[label.get_text()]` when code `c` has
no entry; `renderError` embeds the failure of `gdf.plot` on bad input. -/
inductive PipelineError where
  | labelLookupError (code : String)
  | renderError
deriving DecidableEq, Repr

/-- Python dictionary access `d.get(k)`: the first binding of key `k`. -/
def lookupKey (d : List (String × String)) (k : String) : Option String :=
  (d.find? (fun p => p.1 == k)).map Prod.snd

/-- The relabelling loop of `export_legend`:
`for label in legend.get_texts(): label.set_text(legend_label_dict[label.get_text()])`.
A subscript on a missing key raises `KeyError` (embedded `labelLookupError`)
and aborts; otherwise every label text is replaced by its looked-up value. -/
def replaceLabels (d : List (String × String)) :
    List String → Except PipelineError (List String)
  | [] => .ok []
  | t :: ts =>
    match lookupKey d t with
    | none => .error (.labelLookupError t)
    | some l => (replaceLabels d ts).map (fun ls => l :: ls)

/-- One recorded `savefig` call: destination file, the `dpi` argument, and the
`bbox_inches` argument (`none` embeds the string value tight). -/
structure SaveCall where
  filename : String
  save_dpi : ℚ
  bbox_inches : Option Bbox
deriving DecidableEq, Repr

instance {ε α : Type} [DecidableEq ε] [DecidableEq α] : DecidableEq (Except ε α) := fun a b =>
  match a, b with
  | .ok x, .ok y =>
    match decEq x y with
    | isTrue h => isTrue (by rw [h])
    | isFalse h => isFalse (fun hc => h (Except.ok.inj hc))
  | .error x, .error y =>
    match decEq x y with
    | isTrue h => isTrue (by rw [h])
    | isFalse h => isFalse (fun hc => h (Except.error.inj hc))
  | .ok _, .error _ => isFalse (fun hc => Except.noConfusion hc)
  | .error _, .ok _ => isFalse (fun hc => Except.noConfusion hc)

/-- The matplotlib figure, abstracted to what `export_legend` reads from it:
its `fig.dpi` (the scale of `dpi_scale_trans`) and the renderer measurement
`layoutOf`, which maps the label strings the legend currently shows to the
window extent in canvas (display/pixel) coordinates.
`legend.get_window_extent()` recomputes the legend box from the current
`Text` contents using the figure renderer: the preceding `fig.canvas.draw()`
only brings that renderer into existence, it does not freeze the extents, so
texts mutated by `set_text` are measured at their new size. -/
structure Fig where
  fig_dpi : ℚ
  layoutOf : List String → Bbox

/-- Embeds `bbox.from_extents(*(bbox.extents + np.array(expand)))`: componentwise
addition of the expand offsets to `(x0, y0, x1, y1)`. -/
def fromExtentsAdd (b : Bbox) (e0 e1 e2 e3 : ℚ) : Bbox :=
  { x0 := b.x0 + e0, y0 := b.y0 + e1, x1 := b.x1 + e2, y1 := b.y1 + e3 }

/-- Embeds `bbox.transformed(fig.dpi_scale_trans.inverted())`: `dpi_scale_trans`
scales inches to display units by `fig.dpi`, so its inverse divides every
coordinate by `fig.dpi`. -/
def dpiScaleInverted (b : Bbox) (fig_dpi : ℚ) : Bbox :=
  { x0 := b.x0 / fig_dpi, y0 := b.y0 / fig_dpi
    x1 := b.x1 / fig_dpi, y1 := b.y1 / fig_dpi }

/-- The `if legend_label_dict is not None:` guard around the relabelling
loop of `export_legend`: no dict means no replacement at all. -/
def relabelStep (legend_label_dict : Option (List (String × String)))
    (legendTexts : List String) : Except PipelineError (List String) :=
  match legend_label_dict with
  | none => .ok legendTexts
  | some d => replaceLabels d legendTexts

/-- Cell-3 `export_legend(legend, filename, legend_label_dict, expand)`, in
statement order: `fig.canvas.draw()` creates the figure renderer; the
relabelling loop runs (and may raise) when a dict is given;
`legend.get_window_extent()` then measures the legend box from the label
strings it shows at that moment, i.e. the replaced ones; the expand offsets
are added, the box is converted to inches, and
`fig.savefig(filename, dpi=600, bbox_inches=bbox)` is issued. -/
def export_legend (fig : Fig) (legendTexts : List String) (filename : String)
    (legend_label_dict : Option (List (String × String)))
    (e0 e1 e2 e3 : ℚ) : Except PipelineError SaveCall :=
  (relabelStep legend_label_dict legendTexts).map (fun newTexts =>
    let bbox := dpiScaleInverted (fromExtentsAdd (fig.layoutOf newTexts) e0 e1 e2 e3)
      fig.fig_dpi
    { filename := filename, save_dpi := 600, bbox_inches := some bbox })

/-- Runs `export_legend` at its default `expand=[-5,-5,5,5]`. -/
def export_legend_default (fig : Fig) (legendTexts : List String)
    (filename : String) (legend_label_dict : Option (List (String × String))) :
    Except PipelineError SaveCall :=
  export_legend fig legendTexts filename legend_label_dict (-5) (-5) 5 5

/-- The events `export_legend` performs on the matplotlib state, in the order
of its statements (for a run with a label dict in which every lookup
succeeds): one canvas draw, then one `set_text` per legend label, then the
`get_window_extent` read, then the `savefig`. -/
inductive Ev where
  | draw
  | setText (oldLabel : String)
  | readExtent
  | saveFile
deriving DecidableEq, Repr

/-- Trace of `export_legend` on legend labels `legendTexts`, transcribing the
statement order of cell 3. -/
def exportLegendTrace (legendTexts : List String) : List Ev :=
  Ev.draw :: (legendTexts.map Ev.setText ++ [Ev.readExtent, Ev.saveFile])

/-! The pipeline (cells 2, 4 and 5). -/

/-- The loaded feature table: its declared CRS identifier, its attribute
column names, and its records, each an association list from column name to
the (categorical) attribute value. -/
structure GeoDataFrame where
  crs : String
  columns : List String
  records : List (List (String × String))
deriving DecidableEq, Repr

/-- The values of column `col` across the records. -/
def columnValues (g : GeoDataFrame) (col : String) : List String :=
  g.records.filterMap (fun r => lookupKey r col)

/-- The distinct category codes a categorical legend shows: one entry per
distinct value of the plotted column present in the data. -/
def legendCategories (g : GeoDataFrame) (col : String) : List String :=
  (columnValues g col).dedup

/-- Outcome of one run of the notebook: warnings printed, the `savefig`
calls issued in order, the error it aborted with (if any), and the
geo-registration report of cell 5 (when reached). -/
structure RunResult where
  warnings : List String
  filesWritten : List SaveCall
  err : Option PipelineError
  report : Option GeoRegistration
deriving Repr

/-- Whether `gdf.plot(column_to_plot, ...)` succeeds.  Modelled from the spec:
`gdf.plot` is library code not under src/ (only its call site, cell 4 line
101, is); per the spec it "fails with `RenderError` if the attribute column
is absent from the table or the table is empty". -/
def renderSucceeds (g : GeoDataFrame) (col : String) : Bool :=
  g.columns.contains col && !g.records.isEmpty

/-- One run of cells 2, 4 and 5, in order: the CRS check prints its warning
(never raising); `gdf.plot` renders (or fails); `export_legend` writes the
legend image (or fails, before writing); then the legend is removed, the axes
are scaled and stripped, the texture is saved with
`plt.savefig` with `bbox_inches` set to tight, `pad_inches` zero and `dpi=dpi`,
and cell 5 computes the geo-registration report from the final axis limits
`dataExtent`.  `fig` abstracts the matplotlib figure state and `dataExtent`
the axis limits after `ax.axis(scaled)`, both produced by library rendering
code. -/
def runPipeline (fig : Fig) (dataExtent : Extent) (g : GeoDataFrame)
    (col : String) (labelDict : List (String × String))
    (legend_fn texture_fn : String) (cfg_dpi : ℚ)
    (origin_x origin_y : ℚ) : RunResult :=
  let ws := crsCheckWarnings g.crs
  if renderSucceeds g col then
    match export_legend_default fig (legendCategories g col) legend_fn (some labelDict) with
    | .error e =>
      { warnings := ws, filesWritten := [], err := some e, report := none }
    | .ok legendSave =>
      let textureSave : SaveCall :=
        { filename := texture_fn, save_dpi := cfg_dpi, bbox_inches := none }
      { warnings := ws, filesWritten := [legendSave, textureSave], err := none
        report := some (geoRegistration dataExtent origin_x origin_y) }
  else
    { warnings := ws, filesWritten := [], err := some .renderError, report := none }

/-! Spec-side formulations used to compare against the source definitions. -/

/-- The crop rectangle as the spec words it: the tight bounding box
"expanded by the margin on all four sides". -/
def expandByMargin (m : ℚ) (b : Bbox) : Bbox :=
  { x0 := b.x0 - m, y0 := b.y0 - m, x1 := b.x1 + m, y1 := b.y1 + m }

/-- The unit conversion as the spec words it: canvas coordinates
"converted to physical units using the canvas resolution". -/
def toPhysicalUnits (b : Bbox) (resolution : ℚ) : Bbox :=
  { x0 := b.x0 / resolution, y0 := b.y0 / resolution
    x1 := b.x1 / resolution, y1 := b.y1 / resolution }

/-- Whether a run of `export_legend` aborted with the lookup error. -/
def failsWithLabelLookupError (r : Except PipelineError SaveCall) : Bool :=
  match r with
  | .error (.labelLookupError _) => true
  | _ => false

/-- Whether a run of `export_legend` reached its `savefig`. -/
def legendSaved (r : Except PipelineError SaveCall) : Bool :=
  match r with
  | .ok _ => true
  | _ => false

/-! Concrete fixtures used by witnesses and counterexamples. -/

/-- A figure fixture with `fig.dpi = 100` and a layout whose width grows with
the number of legend entries shown at draw time. -/
def figFixture : Fig :=
  { fig_dpi := 100
    layoutOf := fun labels => { x0 := 0, y0 := 0, x1 := (labels.length : ℚ), y1 := 20 } }

def extentFixture : Extent := { xmin := 500000, xmax := 510000, ymin := 160000, ymax := 165000 }

/-- A one-record feature table carrying category code A in column Super. -/
def gdfFixture : GeoDataFrame :=
  { crs := "EPSG:27700", columns := ["Super"], records := [[("Super", "A")]] }

/-- The same table declaring a different CRS. -/
def gdfFixtureWrongCrs : GeoDataFrame :=
  { crs := "EPSG:4326", columns := ["Super"], records := [[("Super", "A")]] }

/-- An empty feature table. -/
def gdfFixtureEmpty : GeoDataFrame :=
  { crs := "EPSG:27700", columns := ["Super"], records := [] }

/-! Helper lemmas. -/

lemma renderSucceeds_eq_true_iff (g : GeoDataFrame) (col : String) :
    renderSucceeds g col = true ↔ (col ∈ g.columns ∧ g.records ≠ []) := by
  simp [renderSucceeds, List.elem_iff, List.isEmpty_eq_false]

lemma replaceLabels_error_of_missing (d : List (String × String)) :
    ∀ ts : List String, (∃ t ∈ ts, lookupKey d t = none) →
      ∃ c, replaceLabels d ts = .error (.labelLookupError c) ∧ lookupKey d c = none := by
  intro ts
  induction ts with
  | nil => rintro ⟨t, ht, _⟩; cases ht
  | cons t ts ih =>
    rintro ⟨x, hx, hxn⟩
    cases hl : lookupKey d t with
    | none => exact ⟨t, by simp [replaceLabels, hl], hl⟩
    | some l =>
      have hx2 : x ∈ ts := by
        rcases List.mem_cons.mp hx with h | h
        · subst h; rw [hl] at hxn; cases hxn
        · exact h
      obtain ⟨c, hc, hcn⟩ := ih ⟨x, hx2, hxn⟩
      exact ⟨c, by simp [replaceLabels, hl, hc, Except.map], hcn⟩

lemma replaceLabels_ok_of_total (d : List (String × String)) :
    ∀ ts : List String, (∀ t ∈ ts, (lookupKey d t).isSome) →
      ∃ ls, replaceLabels d ts = .ok ls := by
  intro ts
  induction ts with
  | nil => intro _; exact ⟨[], rfl⟩
  | cons t ts ih =>
    intro h
    have ht := h t (List.mem_cons_self t ts)
    cases hl : lookupKey d t with
    | none => rw [hl] at ht; simp at ht
    | some l =>
      obtain ⟨ls, hls⟩ := ih (fun x hx => h x (List.mem_cons_of_mem _ hx))
      exact ⟨l :: ls, by simp [replaceLabels, hl, hls, Except.map]⟩

lemma export_legend_ok_eq (fig : Fig) (ts : List String) (fn : String)
    (d : Option (List (String × String))) (e0 e1 e2 e3 : ℚ) (s : SaveCall)
    (ls : List String) (hrel : relabelStep d ts = .ok ls)
    (h : export_legend fig ts fn d e0 e1 e2 e3 = .ok s) :
    s = { filename := fn, save_dpi := 600
          bbox_inches :=
            some (dpiScaleInverted (fromExtentsAdd (fig.layoutOf ls) e0 e1 e2 e3) fig.fig_dpi) } := by
  unfold export_legend at h
  rw [hrel] at h
  simp [Except.map] at h
  exact h.symm

lemma export_legend_ok_dpi_filename (fig : Fig) (ts : List String) (fn : String)
    (d : Option (List (String × String))) (e0 e1 e2 e3 : ℚ) (s : SaveCall)
    (h : export_legend fig ts fn d e0 e1 e2 e3 = .ok s) :
    s.save_dpi = 600 ∧ s.filename = fn := by
  unfold export_legend at h
  cases hrel : relabelStep d ts with
  | error e => rw [hrel] at h; simp [Except.map] at h
  | ok ls =>
    rw [hrel] at h
    simp [Except.map] at h
    rw [← h]
    exact ⟨rfl, rfl⟩

lemma export_legend_default_ok_eq (fig : Fig) (ts : List String) (fn : String)
    (d : Option (List (String × String))) (s : SaveCall)
    (ls : List String) (hrel : relabelStep d ts = .ok ls)
    (h : export_legend_default fig ts fn d = .ok s) :
    s = { filename := fn, save_dpi := 600
          bbox_inches :=
            some (dpiScaleInverted (fromExtentsAdd (fig.layoutOf ls) (-5) (-5) 5 5) fig.fig_dpi) } :=
  export_legend_ok_eq fig ts fn d (-5) (-5) 5 5 s ls hrel h

lemma export_legend_default_eval (fig : Fig) (ts : List String) (fn : String)
    (d : Option (List (String × String))) (ls : List String)
    (h : relabelStep d ts = .ok ls) :
    export_legend_default fig ts fn d =
      .ok { filename := fn, save_dpi := 600
            bbox_inches :=
              some (dpiScaleInverted (fromExtentsAdd (fig.layoutOf ls) (-5) (-5) 5 5)
                fig.fig_dpi) } := by
  simp [export_legend_default, export_legend, h, Except.map]

/-- The save call `export_legend` issues for a one-entry legend under the
figure fixture: window extent `(0, 0, 1, 20)`, expanded by 5 px per side,
divided by the fixture fig dpi of 100. -/
def legendBoxFixture : Bbox :=
  { x0 := -1/20, y0 := -1/20, x1 := 3/50, y1 := 1/4 }

def legendSaveFixture (fn : String) : SaveCall :=
  { filename := fn, save_dpi := 600, bbox_inches := some legendBoxFixture }

lemma export_legend_default_figFixture (fn : String)
    (d : Option (List (String × String))) (ls : List String)
    (h : relabelStep d ["A"] = .ok ls) (hlen : ls.length = 1) :
    export_legend_default figFixture ["A"] fn d = .ok (legendSaveFixture fn) := by
  rw [export_legend_default_eval figFixture ["A"] fn d ls h]
  have hbox : dpiScaleInverted (fromExtentsAdd (figFixture.layoutOf ls) (-5) (-5) 5 5)
      figFixture.fig_dpi = legendBoxFixture := by
    norm_num [figFixture, fromExtentsAdd, dpiScaleInverted, legendBoxFixture, hlen]
  rw [hbox]
  rfl

lemma runPipeline_ok_eval (fig : Fig) (ext : Extent) (g : GeoDataFrame)
    (col : String) (d : List (String × String)) (lf tf : String)
    (cfg_dpi origin_x origin_y : ℚ) (s : SaveCall)
    (hrs : renderSucceeds g col = true)
    (hexp : export_legend_default fig (legendCategories g col) lf (some d) = .ok s) :
    runPipeline fig ext g col d lf tf cfg_dpi origin_x origin_y =
      { warnings := crsCheckWarnings g.crs
        filesWritten := [s, { filename := tf, save_dpi := cfg_dpi, bbox_inches := none }]
        err := none
        report := some (geoRegistration ext origin_x origin_y) } := by
  unfold runPipeline
  rw [if_pos hrs, hexp]

/-! Claim theorems. -/

/-- Claim C1: for every final plot extent and world-origin coordinate, the
Geo-Registration Reporter reports exactly
`eastings_offset_cm = -100*(origin_x - xmin)`,
`northings_offset_cm = 100*(origin_y - ymin)`,
`texture_width_cm = 100*(xmax - xmin)` and
`texture_height_cm = 100*(ymax - ymin)`; the eastings offset is the negation
of the naive `100*(origin_x - xmin)` while the northings offset is not
negated, and origin `(532816, 180759)` with `xmin = 500000`, `ymin = 160000`
yields `eastings_offset_cm = -3281600` and `northings_offset_cm = 2075900`. -/
theorem geoRegistration_reports_exact_formulas (e : Extent) (origin_x origin_y : ℚ) :
    ((geoRegistration e origin_x origin_y).eastings_offset_cm = -100 * (origin_x - e.xmin) ∧
     (geoRegistration e origin_x origin_y).northings_offset_cm = 100 * (origin_y - e.ymin) ∧
     (geoRegistration e origin_x origin_y).texture_width_cm = 100 * (e.xmax - e.xmin) ∧
     (geoRegistration e origin_x origin_y).texture_height_cm = 100 * (e.ymax - e.ymin)) ∧
    (geoRegistration e origin_x origin_y).eastings_offset_cm = -(100 * (origin_x - e.xmin)) ∧
    (∀ xmax2 ymax2 : ℚ,
      (geoRegistration { xmin := 500000, xmax := xmax2, ymin := 160000, ymax := ymax2 }
          532816 180759).eastings_offset_cm = -3281600 ∧
      (geoRegistration { xmin := 500000, xmax := xmax2, ymin := 160000, ymax := ymax2 }
          532816 180759).northings_offset_cm = 2075900) := by
  refine ⟨⟨rfl, rfl, rfl, rfl⟩, ?_, ?_⟩
  · show -100 * (origin_x - e.xmin) = -(100 * (origin_x - e.xmin))
    ring
  · intro xmax2 ymax2
    constructor <;> norm_num [geoRegistration]

/-- Claim C4: for all valid extents (`xmin ≤ xmax`, `ymin ≤ ymax`) and any
world-origin point, the reported texture width and height in centimeters are
non-negative. -/
theorem texture_dimensions_nonneg (e : Extent) (origin_x origin_y : ℚ)
    (hx : e.xmin ≤ e.xmax) (hy : e.ymin ≤ e.ymax) :
    0 ≤ (geoRegistration e origin_x origin_y).texture_width_cm ∧
    0 ≤ (geoRegistration e origin_x origin_y).texture_height_cm := by
  constructor
  · show (0 : ℚ) ≤ 100 * (e.xmax - e.xmin)
    nlinarith
  · show (0 : ℚ) ≤ 100 * (e.ymax - e.ymin)
    nlinarith

/-- Witness for C4 at the concrete extent fixture. -/
theorem texture_dimensions_nonneg_witness :
    extentFixture.xmin ≤ extentFixture.xmax ∧ extentFixture.ymin ≤ extentFixture.ymax ∧
    (0 ≤ (geoRegistration extentFixture 532816 180759).texture_width_cm ∧
     0 ≤ (geoRegistration extentFixture 532816 180759).texture_height_cm) :=
  ⟨by decide, by decide,
   texture_dimensions_nonneg extentFixture 532816 180759 (by decide) (by decide)⟩

/-- Claim C9: the renderer raster canvas has pixel dimensions equal to
inches × dpi; the configured 12.8 × 9.6 inch canvas rasterized at 600 dpi is
7680 pixels wide and 5760 pixels high. -/
theorem canvas_pixel_dimensions_eq_inches_times_dpi :
    (∀ w d : ℚ, canvasPixelWidth w d = w * d) ∧
    (∀ h d : ℚ, canvasPixelHeight h d = h * d) ∧
    canvasPixelWidth width_inches dpi = 7680 ∧
    canvasPixelHeight height_inches dpi = 5760 :=
  ⟨fun _ _ => rfl, fun _ _ => rfl,
   by norm_num [canvasPixelWidth, width_inches, dpi],
   by norm_num [canvasPixelHeight, height_inches, dpi]⟩

/-- Claim C2: for every category entry shown in the legend, `export_legend`
looks its replacement up in the category-to-label map; it aborts with the
lookup error (the `KeyError` of the dict subscript, the `LabelLookupError` of
the spec) whenever some legend category code has no entry, and reaches the
save only when every code has one — never a silent skip of an unmatched
entry. -/
theorem export_legend_hard_label_lookup (fig : Fig) (ts : List String)
    (fn : String) (d : List (String × String)) (e0 e1 e2 e3 : ℚ) :
    ((∃ t ∈ ts, lookupKey d t = none) →
      failsWithLabelLookupError (export_legend fig ts fn (some d) e0 e1 e2 e3) = true) ∧
    ((∀ t ∈ ts, (lookupKey d t).isSome) →
      legendSaved (export_legend fig ts fn (some d) e0 e1 e2 e3) = true) := by
  constructor
  · intro hmiss
    obtain ⟨c, hc, _⟩ := replaceLabels_error_of_missing d ts hmiss
    simp [export_legend, relabelStep, hc, Except.map, failsWithLabelLookupError]
  · intro htot
    obtain ⟨ls, hls⟩ := replaceLabels_ok_of_total d ts htot
    simp [export_legend, relabelStep, hls, Except.map, legendSaved]

/-- The cell-2 dictionary with the entry for code H removed. -/
def labelDictMissingH : List (String × String) := legend_label_lookup.take 7

/-- Witness for C2: with the H entry removed from the map, exporting a legend
showing codes A through H aborts with the lookup error. -/
theorem export_legend_hard_label_lookup_witness :
    lookupKey labelDictMissingH "H" = none ∧
    failsWithLabelLookupError
      (export_legend figFixture ["A", "B", "C", "D", "E", "F", "G", "H"] legend_filename
        (some labelDictMissingH) (-5) (-5) 5 5) = true :=
  ⟨by decide,
   (export_legend_hard_label_lookup figFixture ["A", "B", "C", "D", "E", "F", "G", "H"]
      legend_filename labelDictMissingH (-5) (-5) 5 5).1 ⟨"H", by decide, by decide⟩⟩

/-- Claim C5: a CRS identifier differing from the hardcoded expected one only
produces a warning; given a table whose column, records and label map satisfy
the other stages, the run still finishes with no error, writing the legend
file and then the texture file. -/
theorem crs_mismatch_warns_but_completes (fig : Fig) (ext : Extent)
    (g : GeoDataFrame) (col : String) (d : List (String × String))
    (lf tf : String) (cfg_dpi origin_x origin_y : ℚ)
    (hcrs : g.crs ≠ expected_crs)
    (hcol : col ∈ g.columns) (hne : g.records ≠ [])
    (hlbl : ∀ c ∈ legendCategories g col, (lookupKey d c).isSome) :
    (runPipeline fig ext g col d lf tf cfg_dpi origin_x origin_y).warnings ≠ [] ∧
    (runPipeline fig ext g col d lf tf cfg_dpi origin_x origin_y).err = none ∧
    (runPipeline fig ext g col d lf tf cfg_dpi origin_x origin_y).filesWritten.map
      SaveCall.filename = [lf, tf] := by
  have hrs : renderSucceeds g col = true := (renderSucceeds_eq_true_iff g col).mpr ⟨hcol, hne⟩
  obtain ⟨ls, hls⟩ := replaceLabels_ok_of_total d (legendCategories g col) hlbl
  have hexp := export_legend_default_eval fig (legendCategories g col) lf (some d) ls hls
  unfold runPipeline
  rw [if_pos hrs, hexp]
  refine ⟨?_, rfl, rfl⟩
  simp [crsCheckWarnings, hcrs]

/-- Witness for C5: a run over a table declaring EPSG:4326 warns but still
produces both files. -/
theorem crs_mismatch_warns_but_completes_witness :
    gdfFixtureWrongCrs.crs ≠ expected_crs ∧
    ((runPipeline figFixture extentFixture gdfFixtureWrongCrs "Super" legend_label_lookup
        legend_filename texture_filename 600 532816 180759).warnings ≠ [] ∧
     (runPipeline figFixture extentFixture gdfFixtureWrongCrs "Super" legend_label_lookup
        legend_filename texture_filename 600 532816 180759).err = none ∧
     (runPipeline figFixture extentFixture gdfFixtureWrongCrs "Super" legend_label_lookup
        legend_filename texture_filename 600 532816 180759).filesWritten.map
       SaveCall.filename = [legend_filename, texture_filename]) :=
  ⟨by decide,
   crs_mismatch_warns_but_completes figFixture extentFixture gdfFixtureWrongCrs "Super"
     legend_label_lookup legend_filename texture_filename 600 532816 180759
     (by decide) (by decide) (by decide) (by decide)⟩

/-- Claim C6: an empty feature table, or a plotted column absent from the
table, makes the render step fail with the render error, and no output file
at all is written. -/
theorem render_failure_writes_no_files (fig : Fig) (ext : Extent)
    (g : GeoDataFrame) (col : String) (d : List (String × String))
    (lf tf : String) (cfg_dpi origin_x origin_y : ℚ)
    (h : g.records = [] ∨ col ∉ g.columns) :
    (runPipeline fig ext g col d lf tf cfg_dpi origin_x origin_y).err =
      some PipelineError.renderError ∧
    (runPipeline fig ext g col d lf tf cfg_dpi origin_x origin_y).filesWritten = [] := by
  have hrs : ¬ (renderSucceeds g col = true) := by
    rw [renderSucceeds_eq_true_iff]
    rintro ⟨hc, hne⟩
    rcases h with h | h
    · exact hne h
    · exact h hc
  unfold runPipeline
  rw [if_neg hrs]
  exact ⟨rfl, rfl⟩

/-- Witness for C6: the empty-table fixture fails with the render error and
writes nothing. -/
theorem render_failure_writes_no_files_witness :
    gdfFixtureEmpty.records = [] ∧
    ((runPipeline figFixture extentFixture gdfFixtureEmpty "Super" legend_label_lookup
        legend_filename texture_filename 600 532816 180759).err =
      some PipelineError.renderError ∧
     (runPipeline figFixture extentFixture gdfFixtureEmpty "Super" legend_label_lookup
        legend_filename texture_filename 600 532816 180759).filesWritten = []) :=
  ⟨rfl,
   render_failure_writes_no_files figFixture extentFixture gdfFixtureEmpty "Super"
     legend_label_lookup legend_filename texture_filename 600 532816 180759 (Or.inl rfl)⟩

/-- Claim C7: the crop rectangle of a completed `export_legend` run equals the
tight window extent of the legend — measured over the label strings `ls` it
shows when `get_window_extent` is called — expanded by the default 5 px
margin on each of the four sides and converted to physical units by the
canvas resolution, and that rectangle is the `bbox_inches` sub-region the
savefig call restricts the destination file to. -/
theorem export_legend_crop_rectangle (fig : Fig) (ts : List String)
    (fn : String) (d : Option (List (String × String))) (s : SaveCall)
    (ls : List String) (hrel : relabelStep d ts = .ok ls)
    (h : export_legend_default fig ts fn d = .ok s) :
    s.filename = fn ∧
    s.bbox_inches =
      some (toPhysicalUnits (expandByMargin 5 (fig.layoutOf ls)) fig.fig_dpi) := by
  rw [export_legend_default_ok_eq fig ts fn d s ls hrel h]
  refine ⟨rfl, ?_⟩
  have hbox : fromExtentsAdd (fig.layoutOf ls) (-5) (-5) 5 5 =
      expandByMargin 5 (fig.layoutOf ls) := by
    simp [fromExtentsAdd, expandByMargin, sub_eq_add_neg]
  show some (dpiScaleInverted (fromExtentsAdd (fig.layoutOf ls) (-5) (-5) 5 5) fig.fig_dpi) =
    some (toPhysicalUnits (expandByMargin 5 (fig.layoutOf ls)) fig.fig_dpi)
  rw [hbox]
  rfl

/-- Witness for C7 at the figure fixture with a single legend entry and no
label dict (so the labels measured are the original ones). -/
theorem export_legend_crop_rectangle_witness :
    relabelStep none ["A"] = .ok ["A"] ∧
    export_legend_default figFixture ["A"] "legend_only.png" none =
      .ok (legendSaveFixture "legend_only.png") ∧
    ((legendSaveFixture "legend_only.png").filename = "legend_only.png" ∧
     (legendSaveFixture "legend_only.png").bbox_inches =
       some (toPhysicalUnits (expandByMargin 5 (figFixture.layoutOf ["A"]))
         figFixture.fig_dpi)) :=
  ⟨rfl,
   export_legend_default_figFixture "legend_only.png" none ["A"] rfl rfl,
   export_legend_crop_rectangle figFixture ["A"] "legend_only.png" none
     (legendSaveFixture "legend_only.png") ["A"] rfl
     (export_legend_default_figFixture "legend_only.png" none ["A"] rfl rfl)⟩

/-- A figure fixture whose layout width tracks the rendered size of the
labels: the one-character code list `["A"]` measures 1 px wide, any other
label list measures 18 px wide. -/
def figFixtureTextWidth : Fig :=
  { fig_dpi := 100
    layoutOf := fun labels =>
      if labels = ["A"] then { x0 := 0, y0 := 0, x1 := 1, y1 := 20 }
      else { x0 := 0, y0 := 0, x1 := 18, y1 := 20 } }

lemma export_legend_tw_eval :
    export_legend_default figFixtureTextWidth ["A"] "legend_d.png"
        (some [("A", "Ageing City Fringe")]) =
      .ok { filename := "legend_d.png", save_dpi := 600
            bbox_inches :=
              some { x0 := -1/20, y0 := -1/20, x1 := 23/100, y1 := 1/4 } } := by
  rw [export_legend_default_eval figFixtureTextWidth ["A"] "legend_d.png"
    (some [("A", "Ageing City Fringe")]) ["Ageing City Fringe"] (by decide)]
  have hne : (["Ageing City Fringe"] : List String) ≠ ["A"] := by decide
  have hl : figFixtureTextWidth.layoutOf ["Ageing City Fringe"] =
      { x0 := 0, y0 := 0, x1 := 18, y1 := 20 } := by
    simp [figFixtureTextWidth, hne]
  rw [hl]
  norm_num [fromExtentsAdd, dpiScaleInverted, figFixtureTextWidth]

/-- Counterexample to C10 as stated: with a label map replacing the
one-character code A by a wide description, the saved crop rectangle is the
one measured from the replaced label (x1 = (18+5)/100), which differs from
the rectangle the original pre-replacement label would give
(x1 = (1+5)/100): the crop is not derived from the original labels. -/
theorem export_legend_crop_uses_replaced_labels :
    export_legend_default figFixtureTextWidth ["A"] "legend_d.png"
        (some [("A", "Ageing City Fringe")]) =
      .ok { filename := "legend_d.png", save_dpi := 600
            bbox_inches :=
              some { x0 := -1/20, y0 := -1/20, x1 := 23/100, y1 := 1/4 } } ∧
    some ({ x0 := -1/20, y0 := -1/20, x1 := 23/100, y1 := 1/4 } : Bbox) ≠
      some (dpiScaleInverted
        (fromExtentsAdd (figFixtureTextWidth.layoutOf ["A"]) (-5) (-5) 5 5)
        figFixtureTextWidth.fig_dpi) := by
  constructor
  · exact export_legend_tw_eval
  · have hl : figFixtureTextWidth.layoutOf ["A"] =
        { x0 := 0, y0 := 0, x1 := 1, y1 := 20 } := by
      simp [figFixtureTextWidth]
    rw [hl]
    intro hc
    rw [Option.some.injEq] at hc
    have hx1 := congrArg Bbox.x1 hc
    norm_num [fromExtentsAdd, dpiScaleInverted, figFixtureTextWidth] at hx1

/-- Claim C10 amended: `export_legend` draws the canvas exactly once, as its
first action and before any label text is replaced, and the window extent is
read after the replacements with no redraw in between; but since
`get_window_extent` measures the current label strings with the renderer that
the draw created, the saved crop rectangle is computed from the replaced
(post-replacement) labels `ls`, not from the original category codes. -/
theorem export_legend_draw_once_crop_from_replaced (fig : Fig) (ts : List String)
    (fn : String) (d : List (String × String)) (ls : List String) (s : SaveCall)
    (hrel : relabelStep (some d) ts = .ok ls)
    (h : export_legend_default fig ts fn (some d) = .ok s) :
    (exportLegendTrace ts).count Ev.draw = 1 ∧
    (exportLegendTrace ts).head? = some Ev.draw ∧
    Ev.draw ∉ ts.map Ev.setText ++ [Ev.readExtent, Ev.saveFile] ∧
    s.bbox_inches =
      some (dpiScaleInverted (fromExtentsAdd (fig.layoutOf ls) (-5) (-5) 5 5) fig.fig_dpi) := by
  have hnot : Ev.draw ∉ ts.map Ev.setText ++ [Ev.readExtent, Ev.saveFile] := by
    simp
  refine ⟨?_, rfl, hnot, ?_⟩
  · show (Ev.draw :: (ts.map Ev.setText ++ [Ev.readExtent, Ev.saveFile])).count Ev.draw = 1
    rw [List.count_cons_self, List.count_eq_zero.mpr hnot]
  · rw [export_legend_default_ok_eq fig ts fn (some d) s ls hrel h]

/-- Witness for the amended C10: replacing the code A by a wide description
yields a crop rectangle measured from the replaced label. -/
theorem export_legend_draw_once_crop_from_replaced_witness :
    relabelStep (some [("A", "Ageing City Fringe")]) ["A"] =
      .ok ["Ageing City Fringe"] ∧
    export_legend_default figFixtureTextWidth ["A"] "legend_d.png"
        (some [("A", "Ageing City Fringe")]) =
      .ok { filename := "legend_d.png", save_dpi := 600
            bbox_inches :=
              some { x0 := -1/20, y0 := -1/20, x1 := 23/100, y1 := 1/4 } } ∧
    ((exportLegendTrace ["A"]).count Ev.draw = 1 ∧
     (exportLegendTrace ["A"]).head? = some Ev.draw ∧
     Ev.draw ∉ ["A"].map Ev.setText ++ [Ev.readExtent, Ev.saveFile] ∧
     ({ filename := "legend_d.png", save_dpi := 600
        bbox_inches :=
          some { x0 := -1/20, y0 := -1/20, x1 := 23/100, y1 := 1/4 } } : SaveCall).bbox_inches =
       some (dpiScaleInverted
         (fromExtentsAdd (figFixtureTextWidth.layoutOf ["Ageing City Fringe"]) (-5) (-5) 5 5)
         figFixtureTextWidth.fig_dpi)) :=
  ⟨by decide,
   export_legend_tw_eval,
   export_legend_draw_once_crop_from_replaced figFixtureTextWidth ["A"] "legend_d.png"
     [("A", "Ageing City Fringe")] ["Ageing City Fringe"]
     { filename := "legend_d.png", save_dpi := 600
       bbox_inches := some { x0 := -1/20, y0 := -1/20, x1 := 23/100, y1 := 1/4 } }
     (by decide) export_legend_tw_eval⟩

/-- Counterexample to C8 as stated: with the pipeline resolution configured
to 300 dpi, the legend file is still saved with dpi argument 600, while only
the texture save follows the configuration. -/
theorem legend_dpi_ignores_configured_resolution :
    (runPipeline figFixture extentFixture gdfFixture "Super" legend_label_lookup
        legend_filename texture_filename 300 532816 180759).filesWritten.map
      (fun s => (s.filename, s.save_dpi)) =
      [(legend_filename, 600), (texture_filename, 300)] ∧
    (600 : ℚ) ≠ 300 := by
  constructor
  · decide
  · decide

/-- Claim C8 amended: whenever a run writes its two files, the legend file is
saved at the fixed 600 dpi written literally into `export_legend`, regardless
of the configured pipeline resolution, while the texture file alone is saved
at the configured resolution; legend and configuration agree only because the
shipped configuration is itself 600. -/
theorem legend_saved_at_600_texture_at_configured (fig : Fig) (ext : Extent)
    (g : GeoDataFrame) (col : String) (d : List (String × String))
    (lf tf : String) (cfg_dpi origin_x origin_y : ℚ) (s t : SaveCall)
    (h : (runPipeline fig ext g col d lf tf cfg_dpi origin_x origin_y).filesWritten = [s, t]) :
    s.save_dpi = 600 ∧ t.save_dpi = cfg_dpi := by
  unfold runPipeline at h
  by_cases hrs : renderSucceeds g col = true
  · rw [if_pos hrs] at h
    cases hexp : export_legend_default fig (legendCategories g col) lf (some d) with
    | error e => rw [hexp] at h; simp at h
    | ok ls =>
      rw [hexp] at h
      injection h with h1 hrest
      injection hrest with h2 _
      constructor
      · rw [← h1]
        exact (export_legend_ok_dpi_filename fig (legendCategories g col) lf (some d)
          (-5) (-5) 5 5 ls hexp).1
      · rw [← h2]
  · rw [if_neg hrs] at h
    simp at h

/-- Witness for the amended C8: a run configured at 300 dpi writes the legend
at 600 dpi and the texture at 300 dpi. -/
theorem legend_saved_at_600_texture_at_configured_witness :
    (runPipeline figFixture extentFixture gdfFixture "Super" legend_label_lookup
        legend_filename texture_filename 300 532816 180759).filesWritten =
      [legendSaveFixture legend_filename,
       { filename := texture_filename, save_dpi := 300, bbox_inches := none }] ∧
    ((legendSaveFixture legend_filename).save_dpi = 600 ∧
     ({ filename := texture_filename, save_dpi := 300
        bbox_inches := none } : SaveCall).save_dpi = 300) := by
  have hcats : legendCategories gdfFixture "Super" = ["A"] := by decide
  have hexp : export_legend_default figFixture (legendCategories gdfFixture "Super")
      legend_filename (some legend_label_lookup) = .ok (legendSaveFixture legend_filename) := by
    rw [hcats]
    exact export_legend_default_figFixture legend_filename (some legend_label_lookup)
      ["Intermediate Lifestyles"] (by decide) rfl
  have hrun := runPipeline_ok_eval figFixture extentFixture gdfFixture "Super"
    legend_label_lookup legend_filename texture_filename 300 532816 180759
    (legendSaveFixture legend_filename) (by decide) hexp
  have hfiles : (runPipeline figFixture extentFixture gdfFixture "Super" legend_label_lookup
      legend_filename texture_filename 300 532816 180759).filesWritten =
      [legendSaveFixture legend_filename,
       { filename := texture_filename, save_dpi := 300, bbox_inches := none }] := by
    rw [hrun]
  exact ⟨hfiles,
    legend_saved_at_600_texture_at_configured figFixture extentFixture gdfFixture "Super"
      legend_label_lookup legend_filename texture_filename 300 532816 180759
      (legendSaveFixture legend_filename)
      { filename := texture_filename, save_dpi := 300, bbox_inches := none } hfiles⟩

/-- A 2:1 rectangular extent used to exercise the aspect-ratio bound. -/
def rectExtentFixture : Extent := { xmin := 0, xmax := 20, ymin := 0, ymax := 10 }

lemma round_ratio_close (x y sc : ℚ) (hx : 0 ≤ x) (hy : 0 < y) (hs : 1 ≤ sc * y) :
    0 < ((round (sc * y) : ℤ) : ℚ) ∧
    |((round (sc * x) : ℤ) : ℚ) / ((round (sc * y) : ℤ) : ℚ) - x / y| ≤
      (x + y) / (2 * ((round (sc * y) : ℤ) : ℚ) * y) := by
  have hWr := abs_le.mp (abs_sub_round (sc * x))
  have hHr := abs_le.mp (abs_sub_round (sc * y))
  have hHpos : 0 < ((round (sc * y) : ℤ) : ℚ) := by linarith [hHr.2]
  refine ⟨hHpos, ?_⟩
  have p1 : (sc * x - ((round (sc * x) : ℤ) : ℚ)) * y ≤ (1 / 2) * y :=
    mul_le_mul_of_nonneg_right hWr.2 hy.le
  have p2 : (-(1 / 2)) * y ≤ (sc * x - ((round (sc * x) : ℤ) : ℚ)) * y :=
    mul_le_mul_of_nonneg_right hWr.1 hy.le
  have p3 : x * (sc * y - ((round (sc * y) : ℤ) : ℚ)) ≤ x * (1 / 2) :=
    mul_le_mul_of_nonneg_left hHr.2 hx
  have p4 : x * (-(1 / 2)) ≤ x * (sc * y - ((round (sc * y) : ℤ) : ℚ)) :=
    mul_le_mul_of_nonneg_left hHr.1 hx
  have hcross : |((round (sc * x) : ℤ) : ℚ) * y - ((round (sc * y) : ℤ) : ℚ) * x| ≤
      (x + y) / 2 := by
    rw [abs_le]
    constructor
    · nlinarith [p1, p2, p3, p4]
    · nlinarith [p1, p2, p3, p4]
  rw [div_sub_div _ _ (ne_of_gt hHpos) (ne_of_gt hy), abs_div,
    abs_of_pos (mul_pos hHpos hy)]
  have hrw : (x + y) / (2 * ((round (sc * y) : ℤ) : ℚ) * y) =
      ((x + y) / 2) / (((round (sc * y) : ℤ) : ℚ) * y) := by
    ring
  rw [hrw, div_le_div_iff_of_pos_right (mul_pos hHpos hy)]
  exact hcross

/-- Claim C3: for every rendered extent, under equal-aspect scaling (a single
pixels-per-data-unit scale `s` for both axes) and with all padding removed
before saving, the saved texture has positive pixel height and its pixel
aspect ratio — width in pixels divided by height in pixels — equals the data
extent aspect ratio `(xmax - xmin) / (ymax - ymin)` to within rounding
tolerance: the difference is at most `(w + h) / (2 * H * h)`, the slack that
rounding each pixel dimension by at most half a pixel can introduce. -/
theorem texture_aspect_ratio_within_rounding (s : ℚ) (e : Extent)
    (hw : 0 ≤ e.xmax - e.xmin) (hh : 0 < e.ymax - e.ymin)
    (hs : 1 ≤ s * (e.ymax - e.ymin)) :
    0 < (textureSavePixelHeight s e : ℚ) ∧
    |(textureSavePixelWidth s e : ℚ) / (textureSavePixelHeight s e : ℚ) -
        (e.xmax - e.xmin) / (e.ymax - e.ymin)| ≤
      ((e.xmax - e.xmin) + (e.ymax - e.ymin)) /
        (2 * (textureSavePixelHeight s e : ℚ) * (e.ymax - e.ymin)) := by
  unfold textureSavePixelWidth textureSavePixelHeight
  exact round_ratio_close (e.xmax - e.xmin) (e.ymax - e.ymin) s hw hh hs

/-- Witness for C3 at the 2:1 rectangular extent and 100 pixels per unit. -/
theorem texture_aspect_ratio_within_rounding_witness :
    (0 : ℚ) ≤ rectExtentFixture.xmax - rectExtentFixture.xmin ∧
    (0 : ℚ) < rectExtentFixture.ymax - rectExtentFixture.ymin ∧
    (1 : ℚ) ≤ 100 * (rectExtentFixture.ymax - rectExtentFixture.ymin) ∧
    (0 < (textureSavePixelHeight 100 rectExtentFixture : ℚ) ∧
     |(textureSavePixelWidth 100 rectExtentFixture : ℚ) /
          (textureSavePixelHeight 100 rectExtentFixture : ℚ) -
        (rectExtentFixture.xmax - rectExtentFixture.xmin) /
          (rectExtentFixture.ymax - rectExtentFixture.ymin)| ≤
      ((rectExtentFixture.xmax - rectExtentFixture.xmin) +
          (rectExtentFixture.ymax - rectExtentFixture.ymin)) /
        (2 * (textureSavePixelHeight 100 rectExtentFixture : ℚ) *
          (rectExtentFixture.ymax - rectExtentFixture.ymin))) :=
  ⟨by norm_num [rectExtentFixture], by norm_num [rectExtentFixture],
   by norm_num [rectExtentFixture],
   texture_aspect_ratio_within_rounding 100 rectExtentFixture
     (by norm_num [rectExtentFixture]) (by norm_num [rectExtentFixture])
     (by norm_num [rectExtentFixture])⟩

end Vizuepy
